import Mathlib

/-!
# Verification of the eduprompt-studio classification and theory-enhancement engine

Shallow embedding of the core of generator/views.py and generator/analytics.py.
Python strings are modelled as lists of characters (Python indexes strings by
character, as does this model).  Python str.find / the in-operator / slicing /
str.split are given executable counterparts below.  Char.toLower models
str.lower for the ASCII range; every case-sensitive comparison exercised by the
claims is on ASCII text or on already-lowercase Greek literals, so the
restriction is immaterial here.  Fallible external calls (the textstat
readability formula) are passed in as an oracle returning Option.
-/

/-- Python strings, character by character. -/
abbrev Str := List Char

/-- Python str.lower (ASCII range). -/
def lowerStr (s : Str) : Str := s.map Char.toLower

/-- Index of the first occurrence of pat in s, if any (Python str.find when
it succeeds). -/
def findIdx : Str → Str → Option Nat
  | [], pat => if pat.isEmpty then some 0 else none
  | c :: t, pat =>
      if pat.isPrefixOf (c :: t) then some 0
      else (findIdx t pat).map (· + 1)

/-- Python str.find(pat, start): -1 when absent, else the absolute index. -/
def pyFind (s pat : Str) (start : Nat) : Int :=
  match findIdx (s.drop start) pat with
  | none => -1
  | some i => ((start + i : Nat) : Int)

/-- The Python in-operator on strings: hasSub haystack needle. -/
def hasSub (hay pat : Str) : Bool := (findIdx hay pat).isSome

/-- any(k in hay for k in pats). -/
def containsAny (hay : Str) (pats : List Str) : Bool :=
  pats.any (fun p => hasSub hay p)

/-- Pad with one space on each side: the f-string trick f' x ' used by the
classifier for word-boundary matching. -/
def padSp (s : Str) : Str := ' ' :: (s ++ [' '])

/-- Python str.split() (split on whitespace runs, no empty pieces). -/
def splitWsAux : Str → Str → List Str
  | [], acc => if acc.isEmpty then [] else [acc.reverse]
  | c :: t, acc =>
      if c = ' ' ∨ c = '\n' ∨ c = '\t' ∨ c = '\r' then
        if acc.isEmpty then splitWsAux t [] else acc.reverse :: splitWsAux t []
      else splitWsAux t (c :: acc)

def splitWs (s : Str) : List Str := splitWsAux s []

/-- The form-field record handed to the enhancement engine (views.py
generate_prompt builds it from the request body; all fields free text). -/
structure FormFields where
  role : Str
  task : Str
  context : Str
  methodology : Str
  subject : Str
  tone : Str

/-- The all-empty FormFields record. -/
def emptyFields : FormFields := ⟨[], [], [], [], [], []⟩

/-- views.py suggest_optimal_theory: strict if/elif cascade over
methodology, then task, then context keyword groups; default blooms. -/
def suggest_optimal_theory (methodology task context : Str) : Str :=
  let m := lowerStr methodology
  let t := lowerStr task
  let c := lowerStr context
  if containsAny m (["διερευνητική", "εξερεύνηση", "ανακάλυψη", "πρόβλημα"].map String.data) then
    ("constructivist").data
  else if containsAny m (["συνεργατική", "ομάδα", "ομαδική", "συνεργασία"].map String.data) then
    ("social_learning").data
  else if containsAny m (["τεχνολογία", "ψηφιακή", "ai"].map String.data) then
    ("tpack").data
  else if containsAny m (["διαφοροποιημένη", "προσαρμοστική", "εξατομικευμένη"].map String.data) then
    ("udl").data
  else if containsAny m (["υποστήριξη", "καθοδήγηση", "scaffolding"].map String.data) then
    ("scaffolding").data
  else if containsAny t (["κριτική σκέψη", "ερωτήσεις", "ανάλυση"].map String.data) then
    ("blooms").data
  else if containsAny t (["αξιολόγηση", "κουίζ", "ρουμπρίκα"].map String.data) then
    ("blooms").data
  else if containsAny t (["σχέδιο μαθήματος", "πλάνο μαθήματος", "αναλυτικό πρόγραμμα"].map String.data) then
    ("blooms").data
  else if containsAny t (["διαφοροποιημένη", "πολλαπλές νοημοσύνες"].map String.data) then
    ("differentiation").data
  else if containsAny c (["μικτό επίπεδο", "ειδικές ανάγκες", "μαθησιακές δυσκολίες"].map String.data) then
    ("udl").data
  else
    ("blooms").data

/-- views.py generate_blooms_enhancement. -/
def generate_blooms_enhancement (fd : FormFields) : Str :=
  let task := lowerStr fd.task
  if containsAny task (["κριτική σκέψη", "ερωτήσεις", "ανάλυση"].map String.data) then
    ("Δόμησε τις ερωτήσεις ώστε να προχωρούν από ανάλυση (ανάλυση εννοιών) σε αξιολόγηση (κρίση ποιότητας/αξίας) σε δημιουργία (παραγωγή νέων ιδεών), ακολουθώντας τα γνωστικά επίπεδα της Ταξινομίας Bloom").data
  else if containsAny task (["άσκηση", "ασκήσεις", "δραστηριότητες"].map String.data) then
    ("Σχεδίασε δραστηριότητες που καλύπτουν: θυμάμαι (ανάκληση γεγονότων) → κατανοώ (εξήγηση εννοιών) → εφαρμόζω (χρήση γνώσης) → αναλύω (εξέταση σχέσεων), προοδευτικά μέσα από την Ταξινομία Bloom").data
  else if containsAny task (["αξιολόγηση", "κουίζ", "ρουμπρίκα"].map String.data) then
    ("Συμπεριέλαβε στοιχεία αξιολόγησης που καλύπτουν πολλαπλά γνωστικά επίπεδα: απομνημόνευση βασικών γεγονότων, κατανόηση κύριων εννοιών, εφαρμογή γνώσης σε νέες καταστάσεις, και ανάλυση σύνθετων σεναρίων (Ταξινομία Bloom)").data
  else if containsAny task (["σχέδιο μαθήματος", "πλάνο μαθήματος", "εισαγωγή"].map String.data) then
    ("Δόμησε το μάθημα ώστε να προχωρά μέσα από γνωστικά επίπεδα από θεμελιώδη γνώση (θυμάμαι/κατανοώ) σε εφαρμογή και σκέψη υψηλότερης τάξης (αναλύω/αξιολογώ/δημιουργώ), ακολουθώντας την Ταξινομία Bloom").data
  else
    ("Ενσωμάτωσε γνωστική πρόοδο από βασική ανάκληση σε δεξιότητες σκέψης υψηλότερης τάξης, ακολουθώντας τα επίπεδα της Ταξινομίας Bloom").data

/-- views.py generate_udl_enhancement. -/
def generate_udl_enhancement (fd : FormFields) : Str :=
  let context := lowerStr fd.context
  if containsAny context (["μικτό επίπεδο", "μαθησιακές δυσκολίες", "ειδικές ανάγκες"].map String.data) then
    ("Παρέχε πολλαπλά μέσα αναπαράστασης (οπτικά, ακουστικά, απτικά), πολλαπλά μέσα αφοσίωσης (επιλογή, συνάφεια, επίπεδα πρόκλησης), και πολλαπλά μέσα έκφρασης (προφορικά, γραπτά, επίδειξη) για να υποστηρίξεις διαφορετικούς μαθητές (αρχές UDL)").data
  else if containsAny context (["δεύτερη γλώσσα", "ξένη γλώσσα"].map String.data) then
    ("Συμπεριέλαβε οπτικές υποστηρίξεις, απλοποιημένες γλωσσικές επιλογές, και πολλαπλούς τρόπους επίδειξης κατανόησης για να φιλοξενήσεις μαθητές γλώσσας (αρχές UDL)").data
  else
    ("Σχεδίασε με ευελιξία στην παρουσίαση περιεχομένου, στις μεθόδους αφοσίωσης μαθητών, και στις μορφές έκφρασης για να φιλοξενήσεις διαφορετικές μαθησιακές ανάγκες (αρχές UDL)").data

/-- views.py generate_tpack_enhancement. -/
def generate_tpack_enhancement (fd : FormFields) : Str :=
  let task := lowerStr fd.task
  let methodology := lowerStr fd.methodology
  if containsAny task (["σχέδιο μαθήματος", "πλάνο μαθήματος", "αναλυτικό πρόγραμμα", "πλήρες πλάνο"].map String.data) then
    ("Καθόρισε ρητά: (1) ποια εργαλεία/χαρακτηριστικά AI θα χρησιμοποιηθούν, (2) πώς υποστηρίζουν συγκεκριμένους μαθησιακούς στόχους, (3) ποιος παιδαγωγικός ρόλος παίζει η τεχνολογία στη διδασκαλία, και (4) πώς τα ψηφιακά εργαλεία ενισχύουν την κατανόηση περιεχομένου αντί να αντικαθιστούν τη διδασκαλία (πλαίσιο TPACK)").data
  else if containsAny task (["αξιολόγηση", "κουίζ", "ρουμπρίκα"].map String.data) then
    ("Λεπτομέρησε πώς τα εργαλεία αξιολόγησης που ενισχύονται με AI θα μετρήσουν την κατανόηση, καθόρισε την παιδαγωγική αιτιολογία για τη χρήση τεχνολογίας στην αξιολόγηση, και εξήγησε πώς η ψηφιακή αξιολόγηση συνδέεται με τους μαθησιακούς στόχους (πλαίσιο TPACK)").data
  else if containsAny task (["άσκηση", "ασκήσεις", "δραστηριότητες"].map String.data) then
    ("Περίγραψε συγκεκριμένα εργαλεία εξάσκησης που τροφοδοτούνται από AI, εξήγησε πώς η τεχνολογία εξατομικεύει την εξάσκηση, λεπτομέρησε τα παιδαγωγικά οφέλη των ψηφιακών ασκήσεων, και καθόρισε πώς η ανατροφοδότηση AI υποστηρίζει την ανάπτυξη δεξιοτήτων (πλαίσιο TPACK)").data
  else if containsAny methodology (["ai", "τεχνολογία", "ψηφιακή"].map String.data) then
    ("Καθόρισε σαφώς τον παιδαγωγικό ρόλο του AI, προσδιόρισε πώς η τεχνολογία ενισχύει τις μεθόδους διδασκαλίας, εξήγησε τη σύνδεση μεταξύ ψηφιακών εργαλείων και κυριαρχίας περιεχομένου, και δικαιολόγησε τις τεχνολογικές επιλογές με εκπαιδευτική θεωρία (πλαίσιο TPACK)").data
  else
    ("Συμπεριέλαβε συγκεκριμένες λεπτομέρειες για το: πώς η τεχνολογία υποστηρίζει τους μαθησιακούς στόχους, ποιος παιδαγωγικός σκοπός εξυπηρετεί το AI, και πώς τα ψηφιακά εργαλεία ενισχύουν αντί να αντικαθιστούν αποτελεσματικές διδακτικές πρακτικές (πλαίσιο TPACK)").data

/-- views.py generate_constructivist_enhancement. -/
def generate_constructivist_enhancement (fd : FormFields) : Str :=
  let methodology := lowerStr fd.methodology
  if containsAny methodology (["διερευνητική", "ανακάλυψη", "εξερεύνηση"].map String.data) then
    ("Υποστήριξε την ενεργή κατασκευή γνώσης μέσω καθοδηγούμενης ανακάλυψης, ενθαρρύνοντας τους μαθητές να χτίσουν κατανόηση μέσω πρακτικής εξερεύνησης και ουσιαστικών συνδέσεων με προηγούμενη γνώση").data
  else if containsAny methodology (["πρόβλημα", "πραγματικός κόσμος", "πραγματικές καταστάσεις"].map String.data) then
    ("Διευκόλυνε τη μάθηση μέσω αυθεντικών εμπειριών επίλυσης προβλημάτων όπου οι μαθητές κατασκευάζουν γνώση συνδέοντας νέες πληροφορίες με υπάρχουσα κατανόηση και πραγματικά πλαίσια").data
  else
    ("Ενθάρρυνε την ενεργή κατασκευή γνώσης μέσω πρακτικών εμπειριών, στοχασμού, και δημιουργίας συνδέσεων αντί για παθητική λήψη πληροφοριών").data

/-- views.py generate_social_learning_enhancement. -/
def generate_social_learning_enhancement (fd : FormFields) : Str :=
  let methodology := lowerStr fd.methodology
  if containsAny methodology (["συνεργατική", "ομάδα", "ομαδική", "συνεργασία"].map String.data) then
    ("Αξιοποίησε την αλληλεπίδραση μεταξύ συνομηλίκων και τις ευκαιρίες συνεργατικής μάθησης όπου οι μαθητές μαθαίνουν μέσω παρατήρησης, συζήτησης, και κοινής κατασκευής γνώσης σε κοινωνικά πλαίσια").data
  else if containsAny methodology (["συζήτηση", "ομαδική εργασία"].map String.data) then
    ("Δημιούργησε δομημένες ευκαιρίες για κοινωνική μάθηση μέσω μοντελοποίησης από συνομηλίκους, συνεργατικής επίλυσης προβλημάτων, και κοινού στοχασμού για τις μαθησιακές διαδικασίες").data
  else
    ("Ενσωμάτωσε αλληλεπίδραση με συνομηλίκους και ευκαιρίες κοινωνικής μάθησης για να ενισχύσεις την κατανόηση μέσω κοινής κατασκευής γνώσης").data

/-- views.py generate_scaffolding_enhancement. -/
def generate_scaffolding_enhancement (fd : FormFields) : Str :=
  let context := lowerStr fd.context
  let task := lowerStr fd.task
  if containsAny context (["3-5", "νηπιαγωγείο", "προσχολική"].map String.data) then
    ("Παρέχε εκτενή υποστήριξη με συγκεκριμένα παραδείγματα, πρακτικά υλικά, και βήμα-προς-βήμα καθοδήγηση, μειώνοντας σταδιακά την υποστήριξη καθώς τα παιδιά αναπτύσσουν αυτονομία").data
  else if containsAny context (["6-11", "δημοτικό", "πρωτοβάθμια"].map String.data) then
    ("Συμπεριέλαβε υποστηρίξεις όπως γραφικούς οργανωτές, επεξεργασμένα παραδείγματα, και καθοδηγούμενη εξάσκηση, με σαφή βήματα προς ανεξάρτητη εφαρμογή").data
  else if containsAny task (["σύνθετη", "προχωρημένη", "δύσκολη"].map String.data) then
    ("Διαίρεσε σύνθετες εργασίες σε διαχειρίσιμα βήματα με προσωρινές υποστηρίξεις, μοντελοποίηση, και καθοδηγούμενη εξάσκηση πριν αναμένεις ανεξάρτητη επίδοση").data
  else
    ("Παρέχε κατάλληλες υποστηρίξεις που μπορούν να αφαιρεθούν σταδιακά καθώς οι μαθητές αναπτύσσουν ικανότητα και αυτοπεποίθηση").data

/-- views.py generate_differentiation_enhancement. -/
def generate_differentiation_enhancement (fd : FormFields) : Str :=
  let task := lowerStr fd.task
  if containsAny task (["διαφοροποιημένη", "πολλαπλές νοημοσύνες"].map String.data) then
    ("Απευθύνσου σε διαφορετικές μαθησιακές προτιμήσεις μέσω ποικίλης παρουσίασης περιεχομένου, επιλογών διαδικασίας, και επιλογών προϊόντος, επιτρέποντας πολλαπλές διαδρομές για επίδειξη κατανόησης").data
  else if containsAny task (["προσαρμοστική", "εξατομικευμένη"].map String.data) then
    ("Παρέχε ευέλικτες μαθησιακές επιλογές που προσαρμόζονται στις ατομικές ανάγκες, ενδιαφέροντα, και επίπεδα ετοιμότητας των μαθητών μέσω ποικίλων διδακτικών προσεγγίσεων").data
  else
    ("Συμπεριέλαβε στρατηγικές διαφοροποίησης που απευθύνονται σε διαφορετικά μαθησιακά στυλ, ικανότητες, και ενδιαφέροντα μέσω πολλαπλών διδακτικών προσεγγίσεων").data

/-- The theory_enhancements dict built inside add_selected_theory_enhancement,
in insertion order. -/
def theoryEnhancements (fd : FormFields) : List (Str × Str) :=
  [(("blooms").data, generate_blooms_enhancement fd),
   (("udl").data, generate_udl_enhancement fd),
   (("tpack").data, generate_tpack_enhancement fd),
   (("constructivist").data, generate_constructivist_enhancement fd),
   (("social_learning").data, generate_social_learning_enhancement fd),
   (("scaffolding").data, generate_scaffolding_enhancement fd),
   (("differentiation").data, generate_differentiation_enhancement fd)]

/-- The seven theory names (the keys of theory_enhancements, in order). -/
def theories : List Str :=
  ["blooms", "udl", "tpack", "constructivist", "social_learning",
   "scaffolding", "differentiation"].map String.data

/-- The Instructions-section header literal searched for first
(views.py line 212). -/
def hdrS : Str := ("Οδηγίες:").data

/-- The literal instruction-6 anchor (views.py line 215). -/
def anchorS : Str := ("6. Κράτησέ την επαγγελματική και εστιασμένη στην εκπαιδευτική εργασία").data

/-- A newline, the terminator searched for after the anchor. -/
def nlS : Str := ("\n").data

/-- The theory actually applied: the user's selection, or the auto-suggestion
when the selection is empty (views.py lines 193-194; Python truth test on the
string). -/
def finalTheory (fd : FormFields) (selected_theory : Str) : Str :=
  if selected_theory.isEmpty then
    suggest_optimal_theory fd.methodology fd.task fd.context
  else selected_theory

/-- Dictionary access theory_enhancements[t] (empty when the key is absent;
the function body only uses it under the membership guard). -/
def enhancementOf (fd : FormFields) (t : Str) : Str :=
  ((theoryEnhancements fd).lookup t).getD []

/-- The character position at which instruction 7 is spliced in:
prompt.find("\n", prompt.find(anchor)) + 1, as in views.py line 217
(0 when no newline follows the anchor, since Python yields -1 + 1). -/
def posOf (prompt : Str) : Nat :=
  (pyFind prompt nlS (pyFind prompt anchorS 0).toNat + 1).toNat

/-- The prompt-rewriting part of add_selected_theory_enhancement
(views.py lines 208-227): membership test in the dict, truth test on the
enhancement, then the find/insert logic with the append fallback when the
Instructions header is absent. -/
def applyEnhancement (prompt : Str) (fd : FormFields) (selected : Str) : Str :=
  match (theoryEnhancements fd).lookup selected with
  | none => prompt
  | some enhancement =>
      if enhancement.isEmpty then prompt
      else
        let instructions_start := pyFind prompt hdrS 0
        if instructions_start = -1 then
          prompt ++ ("\n\nΕκπαιδευτική Ενίσχυση: ").data ++ enhancement
        else
          let i6 := pyFind prompt anchorS 0
          if i6 = -1 then prompt
          else
            let pos := (pyFind prompt nlS i6.toNat + 1).toNat
            prompt.take pos ++ ("7. ΣΗΜΑΝΤΙΚΟ: ").data ++ enhancement
              ++ ("\n").data ++ prompt.drop pos

/-- views.py add_selected_theory_enhancement: returns the (possibly rewritten)
prompt together with the theory actually applied. -/
def add_selected_theory_enhancement (prompt : Str) (fd : FormFields)
    (selected_theory : Str) : Str × Str :=
  let selected := finalTheory fd selected_theory
  (applyEnhancement prompt fd selected, selected)

/-! ## analytics.py: keyword taxonomy tables -/

/-- analytics.py AGE_PATTERNS (labels with their phrase lists, in dict
insertion order). -/
def AGE_PATTERNS : List (Str × List Str) :=
  [(("Early_Childhood").data,
    ["preschool (ages 3-5)", "preschool", "ages 3-5",
     "early childhood", "kindergarten", "pre-k", "nursery",
     "toddlers", "3 year old", "4 year old", "5 year old",
     "pre-school", "daycare"].map String.data),
   (("Primary").data,
    ["primary students (ages 6-11)", "primary students", "ages 6-11",
     "elementary", "primary school", "elementary school",
     "grade 1", "grade 2", "grade 3", "grade 4", "grade 5", "grade 6",
     "first grade", "second grade", "third grade", "fourth grade", "fifth grade",
     "6 year old", "7 year old", "8 year old", "9 year old", "10 year old", "11 year old",
     "junior school", "primary education"].map String.data),
   (("Lower_Secondary").data,
    ["lower secondary (ages 12-14)", "lower secondary", "ages 12-14",
     "middle school", "junior high", "intermediate",
     "grade 7", "grade 8", "grade 9",
     "seventh grade", "eighth grade", "ninth grade",
     "12 year old", "13 year old", "14 year old",
     "secondary education", "junior secondary"].map String.data),
   (("Upper_Secondary").data,
    ["upper secondary (ages 15-18)", "upper secondary", "ages 15-18",
     "high school", "senior high", "secondary school",
     "grade 10", "grade 11", "grade 12",
     "tenth grade", "eleventh grade", "twelfth grade",
     "15 year old", "16 year old", "17 year old", "18 year old",
     "senior", "junior", "sophomore", "freshman",
     "college prep", "advanced placement", "ap students"].map String.data),
   (("Adult").data,
    ["adult learners",
     "university", "college", "higher education",
     "professional development", "adult education",
     "continuing education", "workplace learning",
     "corporate training", "graduate students",
     "undergraduate", "postgraduate", "mature students"].map String.data),
   (("Mixed").data,
    ["mixed-ability classroom", "mixed ability", "multi-age",
     "combined classes", "composite class", "mixed grades",
     "all ages", "various ages", "different age groups"].map String.data)]

/-- analytics.py environment_mappings inside enhanced_context_classification. -/
def environmentMappings : List (Str × Str) :=
  [(("traditional classroom").data, ("Primary").data),
   (("online/remote learning").data, ("Upper_Secondary").data),
   (("hybrid classroom").data, ("Upper_Secondary").data),
   (("homeschool setting").data, ("Primary").data),
   (("after-school program").data, ("Primary").data)]

/-- analytics.py METHODOLOGY_PATTERNS (dict insertion order). -/
def METHODOLOGY_PATTERNS : List (Str × List Str) :=
  [(("Direct_Instruction").data,
    ["teacher explains, ai provides examples and practice (direct instruction)",
     "teacher explains, ai provides examples and practice",
     "teacher demonstrates, ai offers step-by-step guidance (modeling & demonstration)",
     "teacher demonstrates, ai offers step-by-step guidance",
     "teacher presents, ai reinforces with interactive content (lecture-based with tech enhancement)",
     "teacher presents, ai reinforces with interactive content",
     "direct instruction", "explicit teaching", "teacher-led",
     "lecture", "presentation", "demonstration",
     "modeling", "guided instruction", "structured teaching",
     "traditional teaching", "didactic", "expository"].map String.data),
   (("Inquiry_Based").data,
    ["students explore with ai as research assistant (inquiry-based learning)",
     "students explore with ai as research assistant",
     "inquiry-based learning", "inquiry based", "discovery learning",
     "exploration", "investigation", "research-based",
     "questioning", "wonder", "find out", "explore",
     "student inquiry", "open inquiry", "guided inquiry"].map String.data),
   (("Problem_Based").data,
    ["students solve problems with ai hints and scaffolding (problem-based learning)",
     "students solve problems with ai hints and scaffolding",
     "problem-based learning", "problem based", "pbl",
     "real-world problems", "authentic problems",
     "case studies", "scenarios", "challenges",
     "problem solving", "solution-focused"].map String.data),
   (("Project_Based").data,
    ["students create projects with ai collaboration tools (project-based learning)",
     "students create projects with ai collaboration tools",
     "project-based learning", "project based", "pbl",
     "projects", "create", "build", "design",
     "portfolio", "exhibition", "showcase",
     "maker", "construction", "development"].map String.data),
   (("Collaborative").data,
    ["students work in groups with ai facilitation (collaborative learning)",
     "students work in groups with ai facilitation",
     "collaborative learning", "group work", "teamwork",
     "cooperative learning", "peer learning",
     "discussion", "team", "partner", "pairs",
     "social learning", "shared learning"].map String.data),
   (("Differentiated").data,
    ["ai provides different paths for different learners (differentiated instruction)",
     "ai provides different paths for different learners",
     "ai adjusts difficulty based on student progress (adaptive learning)",
     "ai adjusts difficulty based on student progress",
     "ai offers multiple ways to show understanding (multiple intelligences)",
     "ai offers multiple ways to show understanding",
     "differentiated instruction", "differentiation",
     "adaptive learning", "personalized learning",
     "individualized", "customized", "tailored",
     "multiple intelligences", "learning styles",
     "flexible grouping", "tiered assignments"].map String.data),
   (("Assessment_Focused").data,
    ["ai provides ongoing feedback during learning (formative assessment)",
     "ai provides ongoing feedback during learning",
     "ai helps students reflect on their progress (self-assessment & reflection)",
     "ai helps students reflect on their progress",
     "students assess each other with ai guidance (peer assessment)",
     "students assess each other with ai guidance",
     "formative assessment", "summative assessment",
     "evaluation", "feedback", "reflection",
     "self-assessment", "peer assessment",
     "rubrics", "criteria", "standards"].map String.data),
   (("Scaffolding").data,
    ["ai gives personalized support and encouragement (scaffolding)",
     "ai gives personalized support and encouragement",
     "scaffolding", "support", "guidance",
     "gradual release", "modeling", "coaching",
     "mentoring", "assistance", "prompting"].map String.data)]

/-- analytics.py SUBJECT_PATTERNS: category, keywords (+2 each), topics
(+5 each), in dict insertion order. -/
def SUBJECT_PATTERNS : List (Str × List Str × List Str) :=
  [(("STEM").data,
    (["math", "mathematics", "science", "physics", "chemistry", "biology",
      "technology", "engineering", "computer", "coding", "programming",
      "algebra", "geometry", "calculus", "statistics", "data science",
      "robotics", "artificial intelligence", "machine learning"].map String.data),
    (["fractions", "decimals", "percentages", "equations", "functions",
      "trigonometry", "probability", "graphing", "measurement",
      "atoms", "molecules", "cells", "dna", "genetics", "evolution",
      "forces", "energy", "electricity", "magnetism", "waves",
      "chemical reactions", "periodic table", "photosynthesis",
      "solar system", "climate change", "ecosystems",
      "algorithms", "variables", "loops", "functions", "databases",
      "networks", "cybersecurity", "web development", "app development"].map String.data)),
   (("Humanities").data,
    (["history", "social studies", "geography", "literature", "language arts",
      "english", "writing", "reading", "essay", "poetry", "novel",
      "culture", "society", "politics", "government", "economics",
      "philosophy", "psychology", "anthropology", "sociology"].map String.data),
    (["world war", "civil war", "revolutionary war", "independence",
      "renaissance", "middle ages", "ancient civilizations",
      "industrial revolution", "great depression", "cold war",
      "colonialism", "democracy", "constitution", "bill of rights",
      "shakespeare", "poetry analysis", "character development",
      "theme", "symbolism", "narrative", "prose", "drama",
      "continents", "countries", "capitals", "climate zones",
      "cultural diversity", "immigration", "globalization"].map String.data)),
   (("Arts").data,
    (["art", "music", "drama", "theater", "creative", "visual arts",
      "performing arts", "drawing", "painting", "sculpture",
      "dance", "singing", "acting", "design", "photography"].map String.data),
    (["color theory", "composition", "perspective", "shading",
      "rhythm", "melody", "harmony", "tempo", "instruments",
      "improvisation", "character development", "stage design",
      "choreography", "vocal techniques", "art history"].map String.data)),
   (("PE_Health").data,
    (["physical education", "health", "fitness", "sports", "exercise",
      "nutrition", "wellness", "safety", "first aid", "mental health",
      "pe", "gym", "athletics", "recreation"].map String.data),
    (["cardiovascular", "strength training", "flexibility", "endurance",
      "team sports", "individual sports", "healthy eating",
      "food pyramid", "hygiene", "stress management",
      "drug prevention", "injury prevention"].map String.data)),
   (("Languages").data,
    (["english", "language", "grammar", "nouns", "verbs", "adjectives",
      "linguistics", "syntax", "morphology", "vocabulary", "phonetics",
      "language instructor", "language teacher", "esl", "efl",
      "debate", "arguments", "discussion", "speaking", "conversation",
      "pronunciation", "listening", "reading", "writing", "comprehension",
      "french", "spanish", "german", "italian", "chinese"].map String.data),
    (["english nouns", "parts of speech", "sentence structure", "word formation",
      "noun phrases", "proper nouns", "common nouns", "grammar rules",
      "debate topics", "language learning", "discussion topics", "conversation practice",
      "vocabulary building", "language skills", "second language", "foreign language",
      "linguistic analysis", "language structure", "semantic meaning"].map String.data)),
   (("Life_Skills").data,
    (["life skills", "personal development", "social skills", "emotional",
      "communication", "leadership", "teamwork", "time management",
      "financial literacy", "cooking", "health education"].map String.data),
    (["budgeting", "personal finance", "cooking skills", "nutrition",
      "social interaction", "conflict resolution", "decision making",
      "goal setting", "stress management", "self-care"].map String.data)),
   (("Vocational").data,
    (["career", "technical education", "vocational", "trade",
      "professional skills", "workplace", "job skills",
      "business", "entrepreneurship", "marketing"].map String.data),
    (["resume writing", "interview skills", "communication skills",
      "leadership", "teamwork", "project management",
      "financial literacy", "customer service"].map String.data))]

/-! ## analytics.py: classifier functions -/

/-- First key attaining the maximum value, in list order: Python
max(scores, key=scores.get) over a dict in insertion order. -/
def argmaxFirst (l : List (Str × Nat)) : Str :=
  match l with
  | [] => []
  | p :: rest => (rest.foldl (fun b q => if q.2 > b.2 then q else b) p).1

/-- sum(scores.values()). -/
def sumScores (l : List (Str × Nat)) : Nat := (l.map Prod.snd).sum

/-- max(scores.values()) (0 on the empty dict; every dict here is non-empty
with non-negative scores). -/
def maxScores (l : List (Str × Nat)) : Nat := (l.map Prod.snd).foldl max 0

/-- The role-based priority tier of enhanced_subject_classification
(analytics.py lines 549-564): an if/elif cascade of exact role phrases. -/
def roleMatch (role_text : Str) : Option Str :=
  let r := lowerStr role_text
  if hasSub r ("art teacher").data || hasSub r ("art instructor").data then
    some ("Arts").data
  else if hasSub r ("pe teacher").data || hasSub r ("physical education teacher").data then
    some ("PE_Health").data
  else if hasSub r ("math teacher").data || hasSub r ("mathematics teacher").data then
    some ("STEM").data
  else if hasSub r ("science teacher").data then
    some ("STEM").data
  else if hasSub r ("language instructor").data || hasSub r ("language teacher").data
      || hasSub r ("english teacher").data then
    some ("Languages").data
  else if hasSub r ("history teacher").data || hasSub r ("social studies teacher").data then
    some ("Humanities").data
  else if hasSub r ("literature teacher").data then
    some ("Languages").data
  else none

/-- Per-category scores over the combined (already lowercased) text:
+2 per space-padded keyword occurrence, +5 per space-padded topic occurrence
(analytics.py lines 569-583). -/
def subjectScores (combined : Str) : List (Str × Nat) :=
  SUBJECT_PATTERNS.map (fun cat =>
    (cat.1,
     2 * (cat.2.1.countP (fun kw => hasSub (padSp combined) (padSp kw)))
       + 5 * (cat.2.2.countP (fun tp => hasSub (padSp combined) (padSp tp)))))

/-- The content-based fallback tier of enhanced_subject_classification
(analytics.py lines 566-591): Cross_Curricular when the summed score exceeds
25, else the best category when its score exceeds 3, else Other. -/
def contentSubjectClassify (subject_text task_text generated_prompt : Str) : Str :=
  let combined := lowerStr (subject_text ++ (" ").data ++ task_text
      ++ (" ").data ++ generated_prompt)
  let scores := subjectScores combined
  if sumScores scores > 25 then ("Cross_Curricular").data
  else if maxScores scores > 3 then argmaxFirst scores
  else ("Other").data

/-- analytics.py enhanced_subject_classification(subject_text, task_text,
generated_prompt, role_text): role-priority tier first, then content scoring. -/
def enhanced_subject_classification (subject_text task_text generated_prompt role_text : Str) : Str :=
  match roleMatch role_text with
  | some label => label
  | none => contentSubjectClassify subject_text task_text generated_prompt

/-- analytics.py enhanced_context_classification: phrase scores (+10 exact
dropdown text, +3 substring), environment bonuses (+5) and the special-
consideration bonus for Mixed (+5); default Primary. -/
def enhanced_context_classification (context_text generated_prompt : Str) : Str :=
  let combined := lowerStr (context_text ++ (" ").data ++ generated_prompt)
  let base := AGE_PATTERNS.map (fun gp =>
    (gp.1,
     (gp.2.map (fun pat =>
        if hasSub combined pat then
          (if pat = lowerStr context_text then 10 else 3)
        else 0)).sum))
  let envBonus := fun (label : Str) =>
    (environmentMappings.map (fun em =>
        if em.2 = label ∧ hasSub combined em.1 then 5 else 0)).sum
  let mixBonus := fun (label : Str) =>
    if label = ("Mixed").data
        ∧ containsAny combined (["mixed-ability", "esl/efl", "learning difficulties"].map String.data)
    then 5 else 0
  let scores := base.map (fun g => (g.1, g.2 + envBonus g.1 + mixBonus g.1))
  if maxScores scores > 0 then argmaxFirst scores else ("Primary").data

/-- analytics.py enhanced_methodology_classification: +15 for equality with
the raw (lowercased) methodology field, +10 when some word of that field
occurs inside the pattern, +3 for a plain substring hit; default
Direct_Instruction. -/
def enhanced_methodology_classification (methodology_text task_text generated_prompt : Str) : Str :=
  let combined := lowerStr (methodology_text ++ (" ").data ++ task_text
      ++ (" ").data ++ generated_prompt)
  let mLow := lowerStr methodology_text
  let parts := splitWs mLow
  let scores := METHODOLOGY_PATTERNS.map (fun g =>
    (g.1,
     (g.2.map (fun pat =>
        if hasSub combined pat then
          (if pat = mLow then 15
           else if parts.any (fun w => hasSub pat w) then 10
           else 3)
        else 0)).sum))
  if maxScores scores > 0 then argmaxFirst scores else ("Direct_Instruction").data

/-! ## analytics.py: complexity assessment -/

/-- The primary_verbs dict of assess_complexity, in insertion order:
Expert, Advanced, Intermediate, Basic. -/
def expertVerbs : List Str :=
  ["create", "design", "develop", "build", "construct", "compose",
   "generate", "produce"].map String.data

def advancedVerbs : List Str :=
  ["analyze", "evaluate", "compare", "contrast", "assess", "critique",
   "examine", "judge"].map String.data

def intermediateVerbs : List Str :=
  ["apply", "demonstrate", "solve", "use", "implement", "practice",
   "show"].map String.data

def basicVerbs : List Str :=
  ["list", "name", "identify", "recall", "define", "describe",
   "explain", "summarize"].map String.data

/-- task_start.startswith(verb) or f' verb ' in f' task_start '
(analytics.py line 653). -/
def verbHit (task_start verb : Str) : Bool :=
  verb.isPrefixOf task_start || hasSub (padSp task_start) (padSp verb)

/-- One verb group fires when any of its verbs hits the task start. -/
def groupHit (task_start : Str) (verbs : List Str) : Bool :=
  verbs.any (fun v => verbHit task_start v)

/-- The primary-verb short-circuit of assess_complexity (analytics.py lines
639-654): only the first 30 characters of the lowercased task are inspected;
groups are tried in the order Expert, Advanced, Intermediate, Basic and the
first hit returns immediately. -/
def primaryVerbResult (task_text : Str) : Option Str :=
  let task_start := (lowerStr task_text).take 30
  if groupHit task_start expertVerbs then some ("Expert").data
  else if groupHit task_start advancedVerbs then some ("Advanced").data
  else if groupHit task_start intermediateVerbs then some ("Intermediate").data
  else if groupHit task_start basicVerbs then some ("Basic").data
  else none

/-- One level of BLOOMS_COMPLEXITY_INDICATORS. -/
structure BloomLevel where
  verbs : List Str
  tasks : List Str
  complexity : Str

/-- analytics.py BLOOMS_COMPLEXITY_INDICATORS, in dict insertion order
(Remember, Understand, Apply, Analyze, Evaluate, Create), duplicates in the
source lists kept. -/
def BLOOMS_COMPLEXITY_INDICATORS : List BloomLevel :=
  [⟨["list", "name", "identify", "recall", "recognize", "define",
     "describe", "match", "select", "state", "label", "locate",
     "memorize", "repeat", "reproduce", "quote", "cite", "recite",
     "show", "spell", "tell", "relate", "find", "choose",
     "duplicate", "enumerate", "record", "underline", "point to"].map String.data,
    ["vocabulary", "definitions", "facts", "basic information", "key terms",
     "simple recall", "memorization", "word list", "terminology",
     "flashcards", "drill exercises", "rote learning", "basic facts",
     "simple identification", "naming activity", "matching exercise"].map String.data,
    ("Basic").data⟩,
   ⟨["explain", "describe", "discuss", "summarize", "paraphrase",
     "interpret", "translate", "outline", "give examples", "classify",
     "infer", "predict", "extend", "associate", "distinguish", "express",
     "locate", "report", "restate", "review", "recognize", "express",
     "identify", "indicate", "represent", "illustrate", "convert"].map String.data,
    ["explanation", "summary", "main ideas", "concepts", "understanding",
     "interpretation", "comprehension", "overview", "description",
     "concept mapping", "graphic organizers", "reading comprehension",
     "paraphrasing exercise", "translation activity", "concept explanation"].map String.data,
    ("Basic").data⟩,
   ⟨["apply", "demonstrate", "use", "show", "solve", "practice",
     "illustrate", "operate", "implement", "execute",
     "modify", "relate", "calculate", "complete", "examine", "classify",
     "choose", "dramatize", "employ", "interpret", "schedule", "sketch",
     "write", "prepare", "produce", "translate", "manipulate", "utilize"].map String.data,
    ["practice exercises", "application", "problem solving", "demonstrations",
     "examples", "implementation", "practical application", "case studies",
     "worksheets", "homework", "lab work", "simulations", "role playing",
     "hands-on activities", "guided practice", "skill practice"].map String.data,
    ("Intermediate").data⟩,
   ⟨["analyze", "examine", "compare", "contrast", "investigate",
     "categorize", "differentiate", "distinguish", "question", "test",
     "organize", "deconstruct", "attribute", "break down", "correlate",
     "diagram", "divide", "order", "connect", "classify", "arrange",
     "separate", "advertise", "deduce", "dissect", "discriminate", "focus"].map String.data,
    ["analysis", "comparison", "investigation", "examination", "critical thinking",
     "breakdown", "relationships", "case analysis", "research",
     "compare and contrast", "cause and effect", "critical analysis",
     "data analysis", "text analysis", "pattern recognition", "classification"].map String.data,
    ("Advanced").data⟩,
   ⟨["evaluate", "assess", "judge", "critique", "appraise",
     "argue", "defend", "justify", "support", "rate", "prioritize",
     "recommend", "conclude", "discriminate", "decide", "grade",
     "measure", "rank", "score", "select", "validate", "verify",
     "choose", "estimate", "predict", "award", "compare", "criticize"].map String.data,
    ["evaluation", "assessment", "criticism", "judgment", "argumentation",
     "justification", "critique", "peer review", "quality assessment",
     "rubrics", "peer assessment", "self-assessment", "portfolio review",
     "debate", "editorial", "survey", "recommendation report"].map String.data,
    ("Advanced").data⟩,
   ⟨["create", "design", "develop", "compose", "construct",
     "build", "plan", "produce", "invent", "formulate", "generate",
     "synthesize", "reorganize", "substitute", "combine", "compile",
     "devise", "role-play", "rewrite", "tell", "adapt", "change",
     "choose", "delete", "estimate", "happen", "imagine", "improve",
     "make up", "maximize", "minimize", "modify", "original", "predict",
     "propose", "solve", "suppose", "discuss", "facilitate", "format"].map String.data,
    ["lesson plan", "curriculum", "project", "design", "creation",
     "development", "original work", "innovation", "presentation",
     "unit plan", "assessment design", "activity creation", "material development",
     "instructional design", "learning experience", "educational resource",
     "teaching strategy", "learning module", "course design", "program development"].map String.data,
    ("Expert").data⟩]

/-- Bloom verb hit with the stricter boundaries of analytics.py lines 664-667:
padded occurrence, or the verb at the very start / very end of the text. -/
def bloomVerbHit (combined verb : Str) : Bool :=
  hasSub (padSp combined) (padSp verb)
    || (verb ++ [' ']).isPrefixOf combined
    || (' ' :: verb).isSuffixOf combined

/-- Score of one Bloom level: +3 per matching verb, +2 per matching task
phrase of length at least 4 (analytics.py lines 660-674). -/
def bloomLevelScore (combined : Str) (lv : BloomLevel) : Nat :=
  3 * (lv.verbs.countP (fun v => bloomVerbHit combined v))
    + 2 * (lv.tasks.countP (fun t => t.length ≥ 4 && hasSub combined t))

/-- The complexity vote table, dict order Basic, Intermediate, Advanced,
Expert; each level adds its score to the complexity label it maps to. -/
def complexityVotes (combined : Str) : List (Str × Nat) :=
  [(("Basic").data, 0), (("Intermediate").data, 0),
   (("Advanced").data, 0), (("Expert").data, 0)].map (fun p =>
    (p.1, p.2 + ((BLOOMS_COMPLEXITY_INDICATORS.filter
        (fun lv => lv.complexity = p.1)).map
        (fun lv => bloomLevelScore combined lv)).sum))

/-- analytics.py assess_complexity(prompt_text, task_text, methodology_text):
primary-verb short-circuit, then Bloom voting with the hard overrides checked
before the vote threshold; default Intermediate. -/
def assess_complexity (prompt_text task_text methodology_text : Str) : Str :=
  let combined := lowerStr (task_text ++ (" ").data ++ methodology_text
      ++ (" ").data ++ prompt_text)
  match primaryVerbResult task_text with
  | some c => c
  | none =>
      let votes := complexityVotes combined
      if containsAny combined (["complete lesson plan", "lesson plan with objectives",
          "unit plan"].map String.data) then ("Expert").data
      else if containsAny combined (["assessment rubric", "create rubric",
          "design rubric"].map String.data) then ("Expert").data
      else if hasSub combined ("warm-up activity").data
          && !(containsAny combined (["complex", "advanced", "create"].map String.data)) then
        ("Basic").data
      else if hasSub combined ("vocabulary").data && hasSub combined ("list").data then
        ("Basic").data
      else if maxScores votes ≥ 3 then argmaxFirst votes
      else ("Intermediate").data

/-- analytics.py categorize_age_group (legacy wrapper used by the pipeline):
enhanced_context_classification with an empty generated prompt. -/
def categorize_age_group (context_text : Str) : Str :=
  enhanced_context_classification context_text []

/-- analytics.py categorize_methodology (legacy wrapper used by the
pipeline). -/
def categorize_methodology (methodology_text : Str) : Str :=
  enhanced_methodology_classification methodology_text [] []

/-! ## analytics.py: content analysis -/

/-- Number of maximal runs of sentence terminators . ! ? :
len(re.findall(r'[.!?]+', text)). The Bool argument records whether the
previous character was a terminator. -/
def sentenceRunsAux : Str → Bool → Nat
  | [], _ => 0
  | c :: t, prev =>
      let isT := c = '.' ∨ c = '!' ∨ c = '?'
      (if isT ∧ ¬prev then 1 else 0) + sentenceRunsAux t (decide isT)

def sentenceRuns (s : Str) : Nat := sentenceRunsAux s false

/-- analytics.py BLOOMS_KEYWORDS. -/
def BLOOMS_KEYWORDS : List Str :=
  ["analyze", "evaluate", "create", "synthesize", "compare", "contrast",
   "critique", "assess", "judge", "design", "construct", "plan",
   "remember", "understand", "apply", "knowledge", "comprehension"].map String.data

/-- analytics.py UDL_KEYWORDS. -/
def UDL_KEYWORDS : List Str :=
  ["multiple means", "representation", "engagement", "expression",
   "diverse learners", "accessibility", "flexible", "options",
   "accommodations", "modifications", "inclusive", "universal"].map String.data

/-- analytics.py TPACK_KEYWORDS. -/
def TPACK_KEYWORDS : List Str :=
  ["technology", "digital", "online", "interactive", "multimedia",
   "pedagogical", "content knowledge", "integration", "enhance",
   "facilitate", "support learning", "educational technology"].map String.data

/-- analytics.py PEDAGOGICAL_KEYWORDS. -/
def PEDAGOGICAL_KEYWORDS : List Str :=
  ["scaffolding", "differentiation", "formative assessment", "feedback",
   "inquiry", "collaboration", "problem-solving", "critical thinking",
   "metacognition", "reflection", "authentic", "real-world"].map String.data

/-- The record analyze_content returns for non-empty input.  Scores are exact
rationals; the Python round-to-2-decimals of the float complexity score is not
modelled (it never changes whether a field is populated, which is what the
claims about this record concern). -/
structure ContentMetrics where
  prompt_word_count : Nat
  prompt_sentence_count : Nat
  prompt_complexity_score : ℚ
  blooms_keywords_count : Nat
  udl_keywords_count : Nat
  tpack_keywords_count : Nat
  pedagogical_keywords_count : Nat
  specificity_score : Nat
  actionability_score : Nat
deriving DecidableEq

/-- analytics.py analyze_content.  The textstat flesch_reading_ease call is an
external collaborator: it is passed in as an oracle fre, with none standing
for the exception swallowed by the try/except (which yields the neutral 5.0).
Python returns the empty dict for falsy input, modelled as none; the full
dict literal is modelled as some record. -/
def analyze_content (fre : Str → Option ℚ) (prompt_text : Str) : Option ContentMetrics :=
  if prompt_text.isEmpty then none
  else
    let text_lower := lowerStr prompt_text
    let complexity_score : ℚ :=
      match fre prompt_text with
      | some v => max 0 (min 10 ((100 - v) / 10))
      | none => 5
    some
      { prompt_word_count := (splitWs prompt_text).length
        prompt_sentence_count := sentenceRuns prompt_text
        prompt_complexity_score := complexity_score
        blooms_keywords_count := BLOOMS_KEYWORDS.countP (fun k => hasSub text_lower k)
        udl_keywords_count := UDL_KEYWORDS.countP (fun k => hasSub text_lower k)
        tpack_keywords_count := TPACK_KEYWORDS.countP (fun k => hasSub text_lower k)
        pedagogical_keywords_count := PEDAGOGICAL_KEYWORDS.countP (fun k => hasSub text_lower k)
        specificity_score :=
          min 10 (2 * (["students will", "learning objective", "step by step",
            "for example", "specifically", "in particular"].map String.data).countP
              (fun t => hasSub text_lower t))
        actionability_score :=
          min 10 ((["create", "design", "develop", "implement", "analyze",
            "evaluate", "compare", "explain", "demonstrate"].map String.data).countP
              (fun v => hasSub text_lower v)) }

/-! ## The generate_prompt call site (views.py lines 410-415) -/

/-- The subject classification exactly as generate_prompt invokes it:
PromptAnalyzer.enhanced_subject_classification(data subject, data task,
data role, text_response) — four positional arguments, so the role field
lands in the generated_prompt parameter and the LLM response text lands in
the role_text parameter. -/
def generate_prompt_subject_category (subject task role text_response : Str) : Str :=
  enhanced_subject_classification subject task role text_response

/-! ## Numbered-instruction counting (for the template claims) -/

/-- The nine markers a single-digit numbered instruction starts with. -/
def markers9 : List Str :=
  ["1. ", "2. ", "3. ", "4. ", "5. ", "6. ", "7. ", "8. ", "9. "].map String.data

/-- How many distinct single-digit instruction numbers occur in the text. -/
def numberedCount (s : Str) : Nat := markers9.countP (fun m => hasSub s m)

/-- A canonical six-instruction template prompt: the Greek Instructions
header, instructions 1-5, and the literal instruction-6 anchor line
terminated by a newline. -/
def templatePrompt : Str :=
  ("Οδηγίες:\n1. α\n2. β\n3. γ\n4. δ\n5. ε\n6. Κράτησέ την επαγγελματική και εστιασμένη στην εκπαιδευτική εργασία\n").data

/-! ## Basic lemmas about the string helpers -/

theorem findIdx_none_of_hasSub_false {s pat : Str} (h : hasSub s pat = false) :
    findIdx s pat = none := by
  unfold hasSub at h
  cases o : findIdx s pat with
  | none => rfl
  | some k => rw [o] at h; simp at h

theorem pyFind_zero_eq_neg {s pat : Str} (h : hasSub s pat = false) :
    pyFind s pat 0 = -1 := by
  unfold pyFind
  rw [List.drop_zero, findIdx_none_of_hasSub_false h]

theorem pyFind_zero_ne_neg {s pat : Str} (h : hasSub s pat = true) :
    pyFind s pat 0 ≠ -1 := by
  unfold hasSub at h
  unfold pyFind
  rw [List.drop_zero]
  cases o : findIdx s pat with
  | none => rw [o] at h; simp at h
  | some k => simp
theorem findIdx_lt_length {s pat : Str} {k : Nat}
    (h : findIdx s pat = some k) (hp : pat ≠ []) : k < s.length := by
  induction s generalizing k with
  | nil =>
      unfold findIdx at h
      have hne : pat.isEmpty = false := by cases pat <;> simp_all
      rw [hne] at h
      simp at h
  | cons c t ih =>
      unfold findIdx at h
      split at h
      · injection h with h
        simp only [List.length_cons]
        omega
      · cases o : findIdx t pat with
        | none => rw [o] at h; simp at h
        | some j =>
            rw [o] at h
            simp at h
            have := ih o
            simp only [List.length_cons]
            omega

theorem isPrefixOf_append_self (pat rest : Str) :
    pat.isPrefixOf (pat ++ rest) = true := by
  rw [List.isPrefixOf_iff_prefix]
  exact List.prefix_append pat rest

theorem findIdx_isSome_of_isPrefixOf {s pat : Str}
    (h : pat.isPrefixOf s = true) : (findIdx s pat).isSome = true := by
  cases s with
  | nil =>
      have : pat = [] := by
        cases pat with
        | nil => rfl
        | cons c t => simp [List.isPrefixOf] at h
      subst this
      simp [findIdx]
  | cons c t =>
      unfold findIdx
      rw [h]
      simp

theorem findIdx_cons_isSome {t pat : Str} (c : Char)
    (h : (findIdx t pat).isSome = true) :
    (findIdx (c :: t) pat).isSome = true := by
  unfold findIdx
  split
  · simp
  · cases o : findIdx t pat with
    | none => rw [o] at h; simp at h
    | some j => simp

theorem hasSub_middle (pre pat rest : Str) :
    hasSub (pre ++ (pat ++ rest)) pat = true := by
  unfold hasSub
  induction pre with
  | nil =>
      simp only [List.nil_append]
      exact findIdx_isSome_of_isPrefixOf (isPrefixOf_append_self pat rest)
  | cons c t ih =>
      simp only [List.cons_append]
      exact findIdx_cons_isSome c ih

/-! ## Lemmas about the enhancement engine -/

theorem add_fst (prompt : Str) (fd : FormFields) (θ : Str) :
    (add_selected_theory_enhancement prompt fd θ).1
      = applyEnhancement prompt fd (finalTheory fd θ) := rfl

theorem add_snd (prompt : Str) (fd : FormFields) (θ : Str) :
    (add_selected_theory_enhancement prompt fd θ).2 = finalTheory fd θ := rfl

theorem theories_not_empty : ∀ x ∈ theories, x.isEmpty = false := by decide

set_option maxRecDepth 16384 in
theorem suggest_optimal_theory_mem (m t c : Str) :
    suggest_optimal_theory m t c ∈ theories := by
  unfold suggest_optimal_theory
  dsimp only
  repeat' split
  all_goals decide

theorem finalTheory_mem (fd : FormFields) (θ : Str) (h : θ = [] ∨ θ ∈ theories) :
    finalTheory fd θ ∈ theories := by
  rcases h with rfl | h
  · simp only [finalTheory, List.isEmpty_nil, if_true]
    exact suggest_optimal_theory_mem _ _ _
  · have hne := theories_not_empty θ h
    simp only [finalTheory, hne, Bool.false_eq_true, if_false]
    exact h

set_option maxRecDepth 16384 in
theorem gen_blooms_ne (fd : FormFields) :
    (generate_blooms_enhancement fd).isEmpty = false := by
  unfold generate_blooms_enhancement
  dsimp only
  repeat' split
  all_goals rfl

set_option maxRecDepth 16384 in
theorem gen_udl_ne (fd : FormFields) :
    (generate_udl_enhancement fd).isEmpty = false := by
  unfold generate_udl_enhancement
  dsimp only
  repeat' split
  all_goals rfl

set_option maxRecDepth 16384 in
theorem gen_tpack_ne (fd : FormFields) :
    (generate_tpack_enhancement fd).isEmpty = false := by
  unfold generate_tpack_enhancement
  dsimp only
  repeat' split
  all_goals rfl

set_option maxRecDepth 16384 in
theorem gen_constructivist_ne (fd : FormFields) :
    (generate_constructivist_enhancement fd).isEmpty = false := by
  unfold generate_constructivist_enhancement
  dsimp only
  repeat' split
  all_goals rfl

set_option maxRecDepth 16384 in
theorem gen_social_ne (fd : FormFields) :
    (generate_social_learning_enhancement fd).isEmpty = false := by
  unfold generate_social_learning_enhancement
  dsimp only
  repeat' split
  all_goals rfl

set_option maxRecDepth 16384 in
theorem gen_scaffolding_ne (fd : FormFields) :
    (generate_scaffolding_enhancement fd).isEmpty = false := by
  unfold generate_scaffolding_enhancement
  dsimp only
  repeat' split
  all_goals rfl

set_option maxRecDepth 16384 in
theorem gen_differentiation_ne (fd : FormFields) :
    (generate_differentiation_enhancement fd).isEmpty = false := by
  unfold generate_differentiation_enhancement
  dsimp only
  repeat' split
  all_goals rfl

theorem lookup_of_mem (fd : FormFields) (θ : Str) (h : θ ∈ theories) :
    (theoryEnhancements fd).lookup θ = some (enhancementOf fd θ)
      ∧ (enhancementOf fd θ).isEmpty = false := by
  simp only [theories, List.map_cons, List.map_nil, List.mem_cons,
    List.not_mem_nil, or_false] at h
  rcases h with rfl | rfl | rfl | rfl | rfl | rfl | rfl
  · exact ⟨rfl, gen_blooms_ne fd⟩
  · exact ⟨rfl, gen_udl_ne fd⟩
  · exact ⟨rfl, gen_tpack_ne fd⟩
  · exact ⟨rfl, gen_constructivist_ne fd⟩
  · exact ⟨rfl, gen_social_ne fd⟩
  · exact ⟨rfl, gen_scaffolding_ne fd⟩
  · exact ⟨rfl, gen_differentiation_ne fd⟩

theorem applyEnhancement_append (prompt : Str) (fd : FormFields) (sel : Str)
    (hmem : sel ∈ theories) (hh : hasSub prompt hdrS = false) :
    applyEnhancement prompt fd sel
      = prompt ++ ("\n\nΕκπαιδευτική Ενίσχυση: ").data ++ enhancementOf fd sel := by
  obtain ⟨hlk, hne⟩ := lookup_of_mem fd sel hmem
  unfold applyEnhancement
  rw [hlk]
  dsimp only
  rw [hne]
  simp only [Bool.false_eq_true, if_false, pyFind_zero_eq_neg hh, if_pos rfl, if_true]

theorem applyEnhancement_unchanged (prompt : Str) (fd : FormFields) (sel : Str)
    (hmem : sel ∈ theories) (hh : hasSub prompt hdrS = true)
    (ha : hasSub prompt anchorS = false) :
    applyEnhancement prompt fd sel = prompt := by
  obtain ⟨hlk, hne⟩ := lookup_of_mem fd sel hmem
  unfold applyEnhancement
  rw [hlk]
  dsimp only
  rw [hne]
  simp only [Bool.false_eq_true, if_false]
  rw [if_neg (pyFind_zero_ne_neg hh), if_pos (pyFind_zero_eq_neg ha)]

theorem applyEnhancement_insert (prompt : Str) (fd : FormFields) (sel : Str)
    (hmem : sel ∈ theories) (hh : hasSub prompt hdrS = true)
    (ha : hasSub prompt anchorS = true) :
    applyEnhancement prompt fd sel
      = prompt.take (posOf prompt) ++ ("7. ΣΗΜΑΝΤΙΚΟ: ").data
          ++ enhancementOf fd sel ++ ("\n").data ++ prompt.drop (posOf prompt) := by
  obtain ⟨hlk, hne⟩ := lookup_of_mem fd sel hmem
  unfold applyEnhancement
  rw [hlk]
  dsimp only
  rw [hne]
  simp only [Bool.false_eq_true, if_false]
  rw [if_neg (pyFind_zero_ne_neg hh), if_neg (pyFind_zero_ne_neg ha)]
  rfl

theorem pyFind_zero_of_findIdx {s pat : Str} {j : Nat}
    (h : findIdx s pat = some j) : pyFind s pat 0 = (j : Int) := by
  unfold pyFind
  rw [List.drop_zero, h]
  simp

theorem applyEnhancement_splice (prompt : Str) (fd : FormFields) (sel : Str) :
    ∃ pos ins, pos ≤ prompt.length ∧
      applyEnhancement prompt fd sel = prompt.take pos ++ ins ++ prompt.drop pos := by
  unfold applyEnhancement
  cases hlk : (theoryEnhancements fd).lookup sel with
  | none => exact ⟨0, [], by simp, by simp⟩
  | some e =>
      dsimp only
      by_cases he : e.isEmpty = true
      · rw [if_pos he]
        exact ⟨0, [], by simp, by simp⟩
      · rw [if_neg he]
        by_cases hh : pyFind prompt hdrS 0 = -1
        · rw [if_pos hh]
          refine ⟨prompt.length, ("\n\nΕκπαιδευτική Ενίσχυση: ").data ++ e, le_refl _, ?_⟩
          simp
        · rw [if_neg hh]
          by_cases ha : pyFind prompt anchorS 0 = -1
          · rw [if_pos ha]
            exact ⟨0, [], by simp, by simp⟩
          · rw [if_neg ha]
            refine ⟨(pyFind prompt nlS (pyFind prompt anchorS 0).toNat + 1).toNat,
              ("7. ΣΗΜΑΝΤΙΚΟ: ").data ++ e ++ ("\n").data, ?_, ?_⟩
            · cases hfa : findIdx prompt anchorS with
              | none =>
                  exfalso
                  apply ha
                  unfold pyFind
                  rw [List.drop_zero, hfa]
              | some j =>
                  rw [pyFind_zero_of_findIdx hfa]
                  cases hnl : findIdx (prompt.drop ((j : Int).toNat)) nlS with
                  | none =>
                      unfold pyFind
                      rw [hnl]
                      dsimp only
                      omega
                  | some d =>
                      have hd := findIdx_lt_length hnl (by decide)
                      rw [List.length_drop] at hd
                      unfold pyFind
                      rw [hnl]
                      dsimp only
                      omega
            · simp [List.append_assoc]

set_option maxRecDepth 200000

/-! ## The claims -/

/-- C1, counterexample.  The claim says that for every prompt in which the
instruction-6 anchor is absent the function appends the labelled
fallback paragraph.  On the prompt consisting of just the Instructions
header (anchor absent), the function returns the prompt unchanged and no
enhancement paragraph appears in the output. -/
theorem c1_counterexample :
    hasSub (("Οδηγίες:").data) anchorS = false
      ∧ (add_selected_theory_enhancement (("Οδηγίες:").data) emptyFields (("blooms").data)).1
          = ("Οδηγίες:").data
      ∧ hasSub (add_selected_theory_enhancement (("Οδηγίες:").data) emptyFields
          (("blooms").data)).1 (("Εκπαιδευτική Ενίσχυση:").data) = false :=
  ⟨by decide, by decide, by decide⟩

/-- C1, amended.  For every prompt in which the Instructions header
"Οδηγίες:" is absent (not merely the anchor), every FormFields record and
every theory selection that is empty or one of the seven names,
add_selected_theory_enhancement returns the input prompt unchanged with the
labelled enhancement paragraph appended at the end, and (being a total
function) raises no exception. -/
theorem c1_fallback_append (prompt : Str) (fd : FormFields) (θ : Str)
    (hθ : θ = [] ∨ θ ∈ theories) (hh : hasSub prompt hdrS = false) :
    (add_selected_theory_enhancement prompt fd θ).1
      = prompt ++ ("\n\nΕκπαιδευτική Ενίσχυση: ").data
          ++ enhancementOf fd (finalTheory fd θ) := by
  rw [add_fst]
  exact applyEnhancement_append prompt fd _ (finalTheory_mem fd θ hθ) hh

/-- Witness for C1 amended: a concrete prompt without the header. -/
theorem c1_fallback_append_witness :
    hasSub (("hello").data) hdrS = false
      ∧ (add_selected_theory_enhancement (("hello").data) emptyFields (("blooms").data)).1
          = ("hello").data ++ ("\n\nΕκπαιδευτική Ενίσχυση: ").data
              ++ enhancementOf emptyFields (finalTheory emptyFields (("blooms").data)) :=
  ⟨by decide, c1_fallback_append _ _ _ (Or.inr (by decide)) (by decide)⟩

/-- C2.  For every prompt containing the Instructions header and the literal
instruction-6 anchor with a newline at or after it, every FormFields record
and every theory that is empty or one of the seven: the output equals the
input with the single new instruction line spliced in at the position right
after the newline terminating the anchor line — all text on both sides
preserved byte-for-byte — and the new instruction starts with the numbered
marker 7 followed by the Greek IMPORTANT tag.  On the canonical
six-instruction template the numbered-instruction count goes from exactly
six to exactly seven. -/
theorem c2_anchor_insertion :
    (∀ (prompt : Str) (fd : FormFields) (θ : Str),
        θ = [] ∨ θ ∈ theories →
        hasSub prompt hdrS = true →
        hasSub prompt anchorS = true →
        pyFind prompt nlS (pyFind prompt anchorS 0).toNat ≠ -1 →
        (add_selected_theory_enhancement prompt fd θ).1
            = prompt.take (posOf prompt) ++ ("7. ΣΗΜΑΝΤΙΚΟ: ").data
                ++ enhancementOf fd (finalTheory fd θ) ++ ("\n").data
                ++ prompt.drop (posOf prompt)
          ∧ hasSub (add_selected_theory_enhancement prompt fd θ).1 (("7. ").data) = true)
    ∧ numberedCount templatePrompt = 6
    ∧ numberedCount (add_selected_theory_enhancement templatePrompt emptyFields
        (("blooms").data)).1 = 7 := by
  refine ⟨?_, by decide, by decide⟩
  intro prompt fd θ hθ hh ha _hnl
  have hmem := finalTheory_mem fd θ hθ
  have heq := applyEnhancement_insert prompt fd (finalTheory fd θ) hmem hh ha
  rw [add_fst, heq]
  refine ⟨rfl, ?_⟩
  have hsplit : ("7. ΣΗΜΑΝΤΙΚΟ: ").data = ("7. ").data ++ ("ΣΗΜΑΝΤΙΚΟ: ").data := by decide
  rw [hsplit]
  simp only [List.append_assoc]
  exact hasSub_middle _ _ _

/-- Witness for C2: the canonical template, empty fields, blooms selected. -/
theorem c2_anchor_insertion_witness :
    (add_selected_theory_enhancement templatePrompt emptyFields (("blooms").data)).1
        = templatePrompt.take (posOf templatePrompt) ++ ("7. ΣΗΜΑΝΤΙΚΟ: ").data
            ++ enhancementOf emptyFields (finalTheory emptyFields (("blooms").data))
            ++ ("\n").data ++ templatePrompt.drop (posOf templatePrompt)
      ∧ hasSub (add_selected_theory_enhancement templatePrompt emptyFields
          (("blooms").data)).1 (("7. ").data) = true :=
  c2_anchor_insertion.1 templatePrompt emptyFields (("blooms").data)
    (Or.inr (by decide)) (by decide) (by decide) (by decide)

/-- C3.  Calling the enhancer with the empty theory selection returns as
theoryUsed exactly what suggest_optimal_theory returns on the same
methodology/task/context fields; that value is one of the seven theory names
and never empty. -/
theorem c3_theory_consistency (prompt : Str) (fd : FormFields) :
    (add_selected_theory_enhancement prompt fd []).2
        = suggest_optimal_theory fd.methodology fd.task fd.context
      ∧ (add_selected_theory_enhancement prompt fd []).2 ∈ theories
      ∧ (add_selected_theory_enhancement prompt fd []).2 ≠ [] := by
  refine ⟨?_, ?_, ?_⟩
  · rw [add_snd]
    simp only [finalTheory, List.isEmpty_nil, if_true]
  · rw [add_snd]
    exact finalTheory_mem fd [] (Or.inl rfl)
  · rw [add_snd]
    have hmem := finalTheory_mem fd [] (Or.inl rfl)
    have hne := theories_not_empty _ hmem
    intro hcontra
    rw [hcontra] at hne
    simp at hne

/-- C4, counterexample.  The claim says analyze_content returns a fully
populated record for every input including the empty string; the code
returns the empty record (Python: the empty dict) on empty input, whatever
the readability oracle does. -/
theorem c4_counterexample : analyze_content (fun _ => none) [] = none := rfl

/-- C4, amended.  analyze_content returns the fully populated metrics record
exactly for non-empty input (every field present, zero defaults when nothing
matches, for any behaviour of the external readability formula); on the
empty string it returns the empty record instead. -/
theorem c4_record_totality (fre : Str → Option ℚ) (t : Str) :
    (analyze_content fre t).isSome = !t.isEmpty := by
  unfold analyze_content
  cases t with
  | nil => simp
  | cons c s => simp

/-- C5.  On the all-empty FormFields record the four classification
dimensions return exactly the documented defaults Primary,
Direct_Instruction, Other and Intermediate. -/
theorem c5_empty_defaults :
    enhanced_context_classification [] [] = ("Primary").data
      ∧ enhanced_methodology_classification [] [] [] = ("Direct_Instruction").data
      ∧ enhanced_subject_classification [] [] [] [] = ("Other").data
      ∧ assess_complexity [] [] [] = ("Intermediate").data :=
  ⟨by decide, by decide, by decide, by decide⟩

/-- C6.  The primary-verb short-circuit of assess_complexity: whenever the
first 30 characters of the lowercased task hit a primary-verb group, the
function returns that group's label no matter what the prompt and
methodology texts contain (so the short-circuit outranks the hard override
phrases and the Bloom vote, which only read the combined text); the groups
are consulted in the fixed order Expert, Advanced, Intermediate, Basic; and
the photosynthesis lesson-plan task yields Expert regardless of the other
text fields. -/
theorem c6_primary_verb_priority :
    (∀ (p task m c : Str), primaryVerbResult task = some c →
        assess_complexity p task m = c)
    ∧ (∀ task : Str, groupHit ((lowerStr task).take 30) expertVerbs = true →
        primaryVerbResult task = some (("Expert").data))
    ∧ (∀ task : Str, groupHit ((lowerStr task).take 30) expertVerbs = false →
        groupHit ((lowerStr task).take 30) advancedVerbs = true →
        primaryVerbResult task = some (("Advanced").data))
    ∧ (∀ task : Str, groupHit ((lowerStr task).take 30) expertVerbs = false →
        groupHit ((lowerStr task).take 30) advancedVerbs = false →
        groupHit ((lowerStr task).take 30) intermediateVerbs = true →
        primaryVerbResult task = some (("Intermediate").data))
    ∧ (∀ task : Str, groupHit ((lowerStr task).take 30) expertVerbs = false →
        groupHit ((lowerStr task).take 30) advancedVerbs = false →
        groupHit ((lowerStr task).take 30) intermediateVerbs = false →
        groupHit ((lowerStr task).take 30) basicVerbs = true →
        primaryVerbResult task = some (("Basic").data))
    ∧ (∀ p m : Str, assess_complexity p
        (("Create a comprehensive lesson plan for teaching photosynthesis").data) m
          = ("Expert").data) := by
  refine ⟨?_, ?_, ?_, ?_, ?_, ?_⟩
  · intro p task m c h
    unfold assess_complexity
    dsimp only
    rw [h]
  · intro task h
    simp [primaryVerbResult, h]
  · intro task h1 h2
    simp [primaryVerbResult, h1, h2]
  · intro task h1 h2 h3
    simp [primaryVerbResult, h1, h2, h3]
  · intro task h1 h2 h3 h4
    simp [primaryVerbResult, h1, h2, h3, h4]
  · intro p m
    have h : primaryVerbResult
        (("Create a comprehensive lesson plan for teaching photosynthesis").data)
          = some (("Expert").data) := by decide
    unfold assess_complexity
    dsimp only
    rw [h]

/-- Witness for C6: the documented end-to-end example discharges the
hypothesis of the short-circuit conjunct. -/
theorem c6_primary_verb_priority_witness :
    primaryVerbResult
        (("Create a comprehensive lesson plan for teaching photosynthesis").data)
          = some (("Expert").data)
      ∧ assess_complexity []
          (("Create a comprehensive lesson plan for teaching photosynthesis").data) []
            = ("Expert").data :=
  ⟨by decide, c6_primary_verb_priority.1 [] _ [] _ (by decide)⟩

/-- C7.  When the role-priority tier does not fire, a summed keyword/topic
score above 25 across all subject categories forces Cross_Curricular — the
sum test precedes the per-category maximum in the code, so the conclusion
does not depend on whether one category dominates. -/
theorem c7_cross_curricular_over_threshold (s t g r : Str)
    (hrole : roleMatch r = none)
    (hsum : sumScores (subjectScores (lowerStr (s ++ (" ").data ++ t
        ++ (" ").data ++ g))) > 25) :
    enhanced_subject_classification s t g r = ("Cross_Curricular").data := by
  unfold enhanced_subject_classification
  rw [hrole]
  unfold contentSubjectClassify
  dsimp only
  rw [if_pos hsum]

/-- Witness for C7: six whole-word topic hits from two categories sum to
30 > 25, no single category dominating being irrelevant. -/
theorem c7_cross_curricular_over_threshold_witness :
    roleMatch [] = none
      ∧ sumScores (subjectScores (lowerStr (
          (("fractions decimals percentages atoms molecules shakespeare").data)
            ++ (" ").data ++ ([] : Str) ++ (" ").data ++ ([] : Str)))) > 25
      ∧ enhanced_subject_classification
          (("fractions decimals percentages atoms molecules shakespeare").data) [] [] []
            = ("Cross_Curricular").data :=
  ⟨by decide, by decide,
    c7_cross_curricular_over_threshold _ _ _ _ (by decide) (by decide)⟩

/-- C8.  Word-boundary matching: the subject field "chart" does contain the
keyword "art" as a plain substring, yet every category (Arts included)
scores zero because matching pads both sides with spaces, and the
classification is Other. -/
theorem c8_word_boundary :
    hasSub (lowerStr ((("chart").data) ++ (" ").data ++ ([] : Str)
        ++ (" ").data ++ ([] : Str))) (("art").data) = true
      ∧ sumScores (subjectScores (lowerStr ((("chart").data) ++ (" ").data
          ++ ([] : Str) ++ (" ").data ++ ([] : Str)))) = 0
      ∧ enhanced_subject_classification (("chart").data) [] [] [] = ("Other").data :=
  ⟨by decide, by decide, by decide⟩

/-- C9.  In the generate_prompt pipeline the classifier is called with
positional arguments (subject, task, role, generated_text) against the
parameter order (subject_text, task_text, generated_prompt, role_text):
hence the role-priority tier inspects the LLM-generated text, and once that
tier misses, the form's role field is scored as ordinary content text
together with subject and task while the generated text is ignored. -/
theorem c9_call_site_swap :
    (∀ s t r g c : Str, roleMatch g = some c →
        generate_prompt_subject_category s t r g = c)
    ∧ (∀ s t r g : Str, roleMatch g = none →
        generate_prompt_subject_category s t r g = contentSubjectClassify s t r) := by
  constructor
  · intro s t r g c h
    unfold generate_prompt_subject_category enhanced_subject_classification
    rw [h]
  · intro s t r g h
    unfold generate_prompt_subject_category enhanced_subject_classification
    rw [h]

/-- Witness for C9: an LLM response containing the phrase art teacher makes
the role tier fire even though the form's role field is empty. -/
theorem c9_call_site_swap_witness :
    roleMatch (("art teacher").data) = some (("Arts").data)
      ∧ generate_prompt_subject_category [] [] [] (("art teacher").data)
          = ("Arts").data :=
  ⟨by decide, c9_call_site_swap.1 [] [] [] _ _ (by decide)⟩

/-- C10.  For every prompt, FormFields record and theory string whatsoever,
the returned prompt is the input with at most one contiguous string inserted
at a single position (possibly empty, possibly at the end): no byte of the
original is removed, altered or reordered, and the output is never shorter
than the input. -/
theorem c10_at_most_one_insertion (prompt : Str) (fd : FormFields) (θ : Str) :
    ∃ pos ins, pos ≤ prompt.length
      ∧ (add_selected_theory_enhancement prompt fd θ).1
          = prompt.take pos ++ ins ++ prompt.drop pos
      ∧ prompt.length ≤ ((add_selected_theory_enhancement prompt fd θ).1).length := by
  obtain ⟨pos, ins, hle, heq⟩ := applyEnhancement_splice prompt fd (finalTheory fd θ)
  refine ⟨pos, ins, hle, by rw [add_fst]; exact heq, ?_⟩
  rw [add_fst, heq]
  simp only [List.length_append, List.length_take, List.length_drop]
  rw [Nat.min_eq_left hle]
  omega
